import Mathlib

set_option maxRecDepth 8192

/-!
A verification development for `rss_archiver.py`, an SQLite-backed RSS
ingestion and archival tool.  The Python program is shallowly embedded:
the SQLite tables become lists of rows inside a `Store` record, each
database-mutating function becomes a pure Lean function from the old
store to the new store (plus whatever the Python function returns), and
the external libraries (the `requests`/`BeautifulSoup` page scraper, the
`html2text` markup stripper, `dateutil`/SQLite date parsing, `gzip` file
writes, the network) are passed in as explicit function parameters, so
that every theorem quantifies over their behaviour.

Timestamps are modelled as integers (seconds); `datetime.utcnow()`
becomes an explicit `now : Int` argument threaded to the functions that
read the clock.
-/

/-- A row of the `sources` table (`id`, `name`, `url`); `url` is UNIQUE. -/
structure Source where
  id : Nat
  name : String
  url : String
  deriving Repr, DecidableEq

/-- A row of the `articles` table; `link` is UNIQUE, `id` the primary key.
`scraped_at` is the resolution timestamp column (`resolved_at` in the spec);
it is nullable in the schema, hence `Option`. -/
structure Article where
  id : Nat
  title : String
  link : String
  published : String
  content : String
  scraped_at : Option Int
  source_id : Nat
  deriving Repr, DecidableEq

/-- A row of the `tags` table; `tag` is UNIQUE. -/
structure TagRow where
  id : Nat
  tag : String
  deriving Repr, DecidableEq

/-- A row of the `article_tags` association table. -/
structure ArticleTagRow where
  article_id : Nat
  tag_id : Nat
  deriving Repr, DecidableEq

/-- The whole SQLite database.  `nextSourceId` / `nextArticleId` model the
AUTOINCREMENT counters that produce `lastrowid`. -/
structure Store where
  sources : List Source
  articles : List Article
  tags : List TagRow
  article_tags : List ArticleTagRow
  nextSourceId : Nat
  nextArticleId : Nat
  deriving Repr, DecidableEq

/-- `CACHE_DURATION_HOURS = 24` from the configuration block. -/
def CACHE_DURATION_HOURS : Int := 24

/-- `ARCHIVE_THRESHOLD_DAYS = 30` from the configuration block. -/
def ARCHIVE_THRESHOLD_DAYS : Nat := 30

/-- `initialize_db`: creates the four tables (empty database). -/
def initialize_db : Store :=
  { sources := [], articles := [], tags := [], article_tags := [],
    nextSourceId := 1, nextArticleId := 1 }

/-- `save_source(db_name, name, url)`: INSERT, and on `IntegrityError`
(UNIQUE `url` already present) read back the existing id.  Returns the
source id (`None` in the dead read-back-miss branch of the Python). -/
def save_source (st : Store) (name url : String) : Store × Option Nat :=
  if st.sources.any (fun s => s.url == url) then
    match st.sources.find? (fun s => s.url == url) with
    | some s => (st, some s.id)
    | none => (st, none)
  else
    ({ st with
        sources := st.sources ++ [{ id := st.nextSourceId, name := name, url := url }],
        nextSourceId := st.nextSourceId + 1 },
      some st.nextSourceId)

/-- The outcome of `save_article`: the new database state, the local
variable `article_id` computed inside the function, and the value the
Python function actually returns to its caller.  `save_article` has no
`return` statement, so `ret` is always `none` (Python `None`). -/
structure SaveArticleResult where
  store : Store
  article_id : Option Nat
  ret : Option Nat
  deriving Repr, DecidableEq

/-- `save_article(db_name, title, link, published, content, source_id, scraped_now)`.
The INSERT is attempted first (both `scraped_now` branches of the Python
execute the identical INSERT, stamping `scraped_at = utcnow()`).  On
`IntegrityError` (a row with this `link` exists): if `scraped_now` the
UPDATE sets `content`, `scraped_at` and `source_id` for the row with this
`link` and the id is read back; otherwise only the id is read back and
nothing is written.  The function body computes `article_id` but never
returns it. -/
def save_article (st : Store) (title link published content : String)
    (source_id : Nat) (scraped_now : Bool) (now : Int) : SaveArticleResult :=
  if st.articles.any (fun a => a.link == link) then
    if scraped_now then
      let updated := st.articles.map (fun a =>
        if a.link == link then
          { a with content := content, scraped_at := some now, source_id := source_id }
        else a)
      { store := { st with articles := updated },
        article_id := (updated.find? (fun a => a.link == link)).map Article.id,
        ret := none }
    else
      { store := st,
        article_id := (st.articles.find? (fun a => a.link == link)).map Article.id,
        ret := none }
  else
    { store := { st with
        articles := st.articles ++
          [{ id := st.nextArticleId, title := title, link := link,
             published := published, content := content,
             scraped_at := some now, source_id := source_id }],
        nextArticleId := st.nextArticleId + 1 },
      article_id := some st.nextArticleId,
      ret := none }

/-- A concrete one-article store used to exercise the `save_article`
update path. -/
def rowC2 : Article :=
  { id := 1, title := "old", link := "L", published := "p",
    content := "c", scraped_at := some 0, source_id := 7 }

def stC2 : Store :=
  { sources := [], articles := [rowC2], tags := [], article_tags := [],
    nextSourceId := 1, nextArticleId := 2 }

/-- A normalized feed entry as `process_feeds` reads it: `published` /
`updated` model the optional keys of the parsed entry, `econtent` the
optional `entry.content` list (each element standing for one part's
`.value`), `summary` the optional `entry.summary`. -/
structure Entry where
  title : String
  link : String
  published : Option String
  updated : Option String
  econtent : Option (List String)
  summary : Option String
  deriving Repr, DecidableEq

/-- The `published`/`updated`/`''` fallback chain at the top of the entry
loop of `process_feeds`. -/
def entry_published (e : Entry) : String :=
  match e.published with
  | some p => p
  | none =>
    match e.updated with
    | some u => u
    | none => ""

/-- The cache-staleness decision of `process_feeds`: `row` is the result
of `SELECT content, scraped_at FROM articles WHERE link = ?`.
`needs_scraping` starts out true and is cleared only when the stored
content is non-empty with length at least 200, `scraped_at` is present,
and it is less than `CACHE_DURATION_HOURS` old. -/
def needs_scraping (row : Option (String × Option Int)) (now : Int) : Bool :=
  match row with
  | none => true
  | some (c, sa) =>
    if c ≠ "" ∧ 200 ≤ c.length then
      match sa with
      | some t => if now - t < CACHE_DURATION_HOURS * 3600 then false else true
      | none => true
    else true

/-- The feed-payload fallback of `process_feeds`: prefer
`entry.content[0].value` when the `content` attribute exists and the list
is non-empty, else `entry.get('summary', '')`; either way the text runs
through the `html2text` converter `hh` (links and images ignored). -/
def feed_fallback (hh : String → String) (e : Entry) : String :=
  match e.econtent with
  | some (v :: _) => hh v
  | _ => hh (e.summary.getD "")

/-- Content resolution for one entry: if the cache is stale, attempt the
full-page scrape `fetch` (the `fetch_full_article` function; it returns
`""` on any failure); a non-empty result is used with
`scraped_now = true`, an empty one falls back to the feed payload with
`scraped_now = false`.  A fresh cache reuses the stored content. -/
def resolve_content (fetch hh : String → String) (e : Entry)
    (row : Option (String × Option Int)) (now : Int) : String × Bool :=
  if needs_scraping row now then
    if fetch e.link ≠ "" then (fetch e.link, true)
    else (feed_fallback hh e, false)
  else
    match row with
    | some (c, _) => (c, false)
    | none => ("", false)

/-- One iteration of the entry loop of `process_feeds`: look the link up,
resolve content, upsert. -/
def process_entry (fetch hh : String → String) (st : Store) (e : Entry)
    (source_id : Nat) (now : Int) : Store :=
  let row := (st.articles.find? (fun a => a.link == e.link)).map
    (fun a => (a.content, a.scraped_at))
  let rc := resolve_content fetch hh e row now
  (save_article st e.title e.link (entry_published e) rc.1 source_id rc.2 now).store

/-- A 200-character content string, long enough to pass the length
heuristic. -/
def c200 : String := String.mk (List.replicate 200 'a')

/-- An entry whose feed payload carries one content part `"x"`. -/
def e6 : Entry :=
  { title := "t", link := "l", published := none, updated := none,
    econtent := some ["x"], summary := none }

/-- `fetch_feeds(feed_urls)`: per-URL `feedparser.parse` with a `try`
around each iteration.  `oracle` models parsing one URL (`Except.error`
covers network errors, non-2xx responses and bozo/malformed documents,
all raised and caught identically).  The first component is the list the
Python function returns (successful documents, in order); the second is
the sequence of `logging.error` records `(url, message)` emitted for
failures. -/
def fetch_feeds {α : Type} (oracle : String → Except String α) :
    List String → List α × List (String × String)
  | [] => ([], [])
  | url :: rest =>
    match oracle url with
    | Except.ok f =>
      (f :: (fetch_feeds oracle rest).1, (fetch_feeds oracle rest).2)
    | Except.error e =>
      ((fetch_feeds oracle rest).1, (url, e) :: (fetch_feeds oracle rest).2)

/-- An oracle on which every URL fails to parse. -/
def badOracle : String → Except String Nat := fun _ => Except.error "malformed"

/-- `search_articles(db_name, search_tags)`: empty input short-circuits;
the ids of the *existing* tags matching any searched string are
collected; if none exist the result is empty; otherwise an article
qualifies when the number of distinct matching tag ids attached to it
equals the number of existing matched tag ids (the SQL
`GROUP BY ... HAVING COUNT(DISTINCT tag_id) = len(tag_ids)`). -/
def search_articles (st : Store) (search_tags : List String) : List Article :=
  if search_tags.isEmpty then []
  else
    let tag_ids := (st.tags.filter (fun t => search_tags.contains t.tag)).map TagRow.id
    if tag_ids.isEmpty then []
    else
      st.articles.filter (fun a =>
        ((st.article_tags.filter (fun r =>
            r.article_id == a.id && tag_ids.contains r.tag_id)).map
          ArticleTagRow.tag_id).dedup.length == tag_ids.length)

/-- An article carrying only the tag `a`. -/
def artX : Article :=
  { id := 1, title := "T", link := "LX", published := "2020-01-01",
    content := "body", scraped_at := some 0, source_id := 1 }

def st8 : Store :=
  { sources := [], articles := [artX], tags := [{ id := 1, tag := "a" }],
    article_tags := [{ article_id := 1, tag_id := 1 }],
    nextSourceId := 1, nextArticleId := 2 }

/-- The SELECT of `archive_old_articles`:
`datetime(published) < cutoff` with `parseSql` modelling SQLite's
`datetime()` (returning `none` exactly when SQLite cannot parse the
string, in which case the NULL comparison makes the row unselected). -/
def is_candidate (parseSql : String → Option Int) (cutoff : Int)
    (a : Article) : Bool :=
  match parseSql a.published with
  | some t => decide (t < cutoff)
  | none => false

/-- `old_articles`, the candidate rows of one archival run. -/
def archive_candidates (parseSql : String → Option Int) (cutoff : Int)
    (st : Store) : List Article :=
  st.articles.filter (is_candidate parseSql cutoff)

/-- Appending one article under its `year/month` key, preserving the
insertion order of the Python dict `archive_dict`. -/
def addToGroups (gs : List ((Nat × Nat) × List Article)) (key : Nat × Nat)
    (a : Article) : List ((Nat × Nat) × List Article) :=
  match gs with
  | [] => [(key, [a])]
  | (k, l) :: rest =>
    if k = key then (k, l ++ [a]) :: rest
    else (k, l) :: addToGroups rest key a

/-- The grouping loop of `archive_old_articles`: `parseGroup` models
`dateutil.parser.parse` reduced to the `(year, month)` key, `none` being
the exception path, where the article is logged and put in no group
(yet still deleted later). -/
def buildGroups (parseGroup : String → Option (Nat × Nat))
    (l : List Article) : List ((Nat × Nat) × List Article) :=
  l.foldl (fun gs a =>
    match parseGroup a.published with
    | some ym => addToGroups gs ym a
    | none => gs) []

/-- The observable outcome of one archival run: the database afterwards,
the group files whose gzip write succeeded (with their contents), and
the keys of the groups whose write raised (caught and logged). -/
structure ArchiveRun where
  store : Store
  written : List ((Nat × Nat) × List Article)
  failed : List (Nat × Nat)
  deriving Repr, DecidableEq

/-- `archive_old_articles(db_name, threshold_days)` with
`cutoff = utcnow() - threshold_days`: select candidates; if none, log
and return (touching neither the filesystem nor any table); otherwise
group by `(year, month)`, write one compressed file per group
(`writeOk` tells which writes succeed; a failed write is logged and the
loop continues), and finally DELETE every candidate row by id —
unconditionally, whether or not its group's file was written. -/
def archive_old_articles (parseSql : String → Option Int)
    (parseGroup : String → Option (Nat × Nat)) (writeOk : Nat × Nat → Bool)
    (st : Store) (cutoff : Int) : ArchiveRun :=
  if (archive_candidates parseSql cutoff st).isEmpty then
    { store := st, written := [], failed := [] }
  else
    { store := { st with articles := st.articles.filter (fun a =>
        !(((archive_candidates parseSql cutoff st).map Article.id).contains a.id)) },
      written := (buildGroups parseGroup (archive_candidates parseSql cutoff st)).filter
        (fun g => writeOk g.1),
      failed := ((buildGroups parseGroup (archive_candidates parseSql cutoff st)).filter
        (fun g => !writeOk g.1)).map Prod.fst }

/-- A candidate article (every parse succeeds, every write fails below). -/
def aOld : Article :=
  { id := 1, title := "T", link := "LO", published := "2020-01-05",
    content := "body", scraped_at := some 0, source_id := 1 }

def st1s : Store :=
  { sources := [], articles := [aOld], tags := [], article_tags := [],
    nextSourceId := 1, nextArticleId := 2 }

/-- An article with an unparseable `published` string. -/
def aND : Article :=
  { id := 1, title := "t", link := "LN", published := "not-a-date",
    content := "c", scraped_at := some 0, source_id := 1 }

def stw4 : Store :=
  { sources := [], articles := [aND], tags := [], article_tags := [],
    nextSourceId := 1, nextArticleId := 2 }

def artW : Article :=
  { id := 1, title := "t", link := "LW", published := "not-a-date",
    content := "c", scraped_at := some 0, source_id := 1 }

def stw10 : Store :=
  { sources := [], articles := [artW], tags := [], article_tags := [],
    nextSourceId := 1, nextArticleId := 2 }

/-- The invariant of C9: a live article row with non-empty `content` has
a non-null `scraped_at`. -/
def ArticleInv (st : Store) : Prop :=
  ∀ a ∈ st.articles, a.content ≠ "" → a.scraped_at ≠ none

def artZ : Article :=
  { id := 1, title := "t", link := "LZ", published := "p",
    content := "c", scraped_at := some 0, source_id := 1 }

def stw9 : Store :=
  { sources := [], articles := [artZ], tags := [], article_tags := [],
    nextSourceId := 2, nextArticleId := 2 }

/-- C2 counterexample: calling the upsert on an existing link with
`scraped_now = false` leaves the row's `title`, `published` and
`scraped_at` untouched, contradicting the claim that every upsert on an
existing link refreshes `title`/`published` and stamps `resolved_at = now`
for both values of the flag. -/
theorem save_article_refresh_claim_false :
    ¬ (∀ a ∈ (save_article stC2 "new" "L" "p2" "c2" 9 false 100).store.articles,
        a.link = "L" →
          a.title = "new" ∧ a.published = "p2" ∧ a.content = "c2" ∧
          a.source_id = 9 ∧ a.scraped_at = some 100) := by
  decide

/-- C2 (amended): when a row with `link` already exists, the call with
`scraped_now = false` changes nothing at all; the call with
`scraped_now = true` rewrites exactly the row with that link, setting
`content`, `source_id` and `scraped_at = now` while keeping `title` and
`published`, leaves every other row as it was, and touches no other
table and no AUTOINCREMENT counter. -/
theorem save_article_existing_link_update (st : Store)
    (title link published content : String) (sid : Nat) (now : Int)
    (h : ∃ b ∈ st.articles, b.link = link) :
    (save_article st title link published content sid false now).store = st
    ∧ (∀ b ∈ st.articles,
        (b.link = link →
          { b with content := content, scraped_at := some now, source_id := sid }
            ∈ (save_article st title link published content sid true now).store.articles)
        ∧ (b.link ≠ link →
          b ∈ (save_article st title link published content sid true now).store.articles))
    ∧ (save_article st title link published content sid true now).store.sources = st.sources
    ∧ (save_article st title link published content sid true now).store.nextArticleId
        = st.nextArticleId := by
  obtain ⟨b0, hb0, hb0l⟩ := h
  have hany : st.articles.any (fun a => a.link == link) = true :=
    List.any_eq_true.mpr ⟨b0, hb0, by simpa using hb0l⟩
  refine ⟨?_, ?_, ?_, ?_⟩
  · simp [save_article, hany]
  · intro b hb
    constructor
    · intro hbl
      simp only [save_article, hany, if_true]
      have hmem := List.mem_map_of_mem
        (fun a => if a.link == link then
          { a with content := content, scraped_at := some now, source_id := sid }
        else a) hb
      simpa [beq_iff_eq, hbl] using hmem
    · intro hbl
      simp only [save_article, hany, if_true]
      have hmem := List.mem_map_of_mem
        (fun a => if a.link == link then
          { a with content := content, scraped_at := some now, source_id := sid }
        else a) hb
      simpa [beq_iff_eq, hbl] using hmem
  · simp [save_article, hany]
  · simp [save_article, hany]

/-- Witness for the amended C2 theorem at a concrete store. -/
theorem save_article_existing_link_update_witness :
    (save_article stC2 "new" "L" "p2" "c2" 9 false 100).store = stC2 :=
  (save_article_existing_link_update stC2 "new" "L" "p2" "c2" 9 100
    ⟨rowC2, by decide, by decide⟩).1

/-- C5: the cache is reused exactly when a row exists whose content is
non-empty with length at least 200 and whose `scraped_at` is present and
strictly less than 24 hours old; reuse short-circuits (the result is the
stored content, for every possible page fetcher, so the network is never
consulted), and in every other case the full-page extraction is attempted
and decides the outcome. -/
theorem cache_reuse_iff (row : Option (String × Option Int)) (now : Int)
    (e : Entry) (hh : String → String) :
    (needs_scraping row now = false ↔
      ∃ c t, row = some (c, some t) ∧ c ≠ "" ∧ 200 ≤ c.length ∧
        now - t < CACHE_DURATION_HOURS * 3600)
    ∧ (∀ c sa, row = some (c, sa) → needs_scraping row now = false →
        ∀ fetch : String → String, resolve_content fetch hh e row now = (c, false))
    ∧ (needs_scraping row now = true → ∀ fetch : String → String,
        (fetch e.link ≠ "" → resolve_content fetch hh e row now = (fetch e.link, true))
        ∧ (fetch e.link = "" →
            resolve_content fetch hh e row now = (feed_fallback hh e, false))) := by
  refine ⟨⟨?_, ?_⟩, ?_, ?_⟩
  · intro hns
    rcases row with _ | ⟨c, sa⟩
    · simp [needs_scraping] at hns
    · rcases sa with _ | t
      · by_cases hc : c ≠ "" ∧ 200 ≤ c.length <;> simp [needs_scraping, hc] at hns
      · by_cases hc : c ≠ "" ∧ 200 ≤ c.length
        · by_cases ht : now - t < CACHE_DURATION_HOURS * 3600
          · exact ⟨c, t, rfl, hc.1, hc.2, ht⟩
          · simp [needs_scraping, hc, ht] at hns
        · simp [needs_scraping, hc] at hns
  · rintro ⟨c, t, rfl, hc1, hc2, ht⟩
    simp [needs_scraping, hc1, hc2, ht]
  · intro c sa hrow hns fetch
    subst hrow
    simp [resolve_content, hns]
  · intro hns fetch
    constructor
    · intro hf
      simp [resolve_content, hns, hf]
    · intro hf
      simp [resolve_content, hns, hf]

/-- Witness for C5 at a concrete one-hour-old 200-character cache row. -/
theorem cache_reuse_iff_witness :
    needs_scraping (some (c200, some 0)) 3600 = false
    ∧ resolve_content (fun _ => "PAGE") (fun s => s) e6 (some (c200, some 0)) 3600
        = (c200, false) := by
  have h := cache_reuse_iff (some (c200, some 0)) 3600 e6 (fun s => s)
  have hns : needs_scraping (some (c200, some 0)) 3600 = false :=
    h.1.mpr ⟨c200, 0, rfl, by decide, by decide, by decide⟩
  exact ⟨hns, h.2.1 c200 (some 0) rfl hns (fun _ => "PAGE")⟩

/-- C6: when the page scrape yields the empty string (and the entry was
due for scraping), the resolved content is the markup-stripped first
feed content part when that list is present and non-empty, else the
markup-stripped summary (defaulting to the empty string), and
`scraped_now` is false. -/
theorem empty_extraction_feed_fallback (fetch hh : String → String) (e : Entry)
    (row : Option (String × Option Int)) (now : Int)
    (h1 : needs_scraping row now = true) (h2 : fetch e.link = "") :
    resolve_content fetch hh e row now = (feed_fallback hh e, false)
    ∧ (∀ v rest, e.econtent = some (v :: rest) →
        (resolve_content fetch hh e row now).1 = hh v)
    ∧ ((e.econtent = none ∨ e.econtent = some []) →
        (resolve_content fetch hh e row now).1 = hh (e.summary.getD "")) := by
  have hres : resolve_content fetch hh e row now = (feed_fallback hh e, false) := by
    simp [resolve_content, h1, h2]
  refine ⟨hres, ?_, ?_⟩
  · intro v rest hv
    rw [hres]
    simp [feed_fallback, hv]
  · intro hcase
    rw [hres]
    rcases hcase with hc | hc <;> simp [feed_fallback, hc]

/-- Witness for C6: with an always-failing scraper, `e6` resolves to the
markup-stripped feed content part. -/
theorem empty_extraction_feed_fallback_witness :
    resolve_content (fun _ => "") (fun s => "T" ++ s) e6 none 0 = ("Tx", false) := by
  have h := empty_extraction_feed_fallback (fun _ => "") (fun s => "T" ++ s)
    e6 none 0 rfl rfl
  rw [h.1]
  rfl

/-- C3: `save_article` computes the local `article_id` (here on the insert
path, where the fresh row gets id 1) but has no `return` statement, so
the caller always receives `None` — the claimed "returns the id of the
article row" is false on every path. -/
theorem save_article_returns_no_id :
    (save_article initialize_db "t" "L" "p" "c" 1 true 5).ret = none
    ∧ (save_article initialize_db "t" "L" "p" "c" 1 true 5).article_id = some 1
    ∧ (save_article stC2 "t" "L" "p" "c" 1 false 5).ret = none
    ∧ (save_article stC2 "t" "L" "p" "c" 1 false 5).article_id = some 1 := by
  decide

/-- C7 counterexample: with one failing URL the returned list has no
entry for it (length 0, not 1), so `fetch_feeds` does not return one
FetchResult per URL. -/
theorem fetch_feeds_not_one_per_url :
    (fetch_feeds badOracle ["u"]).1.length ≠ (["u"] : List String).length := by
  decide

/-- C7 (amended): `fetch_feeds` is total and per-URL isolated: it returns
exactly the successfully parsed documents in URL order (failed URLs
contribute no element), and every failure is reported in a log record
carrying its URL, never raised out of the batch. -/
theorem fetch_feeds_success_list_and_log {α : Type}
    (oracle : String → Except String α) (urls : List String) :
    (fetch_feeds oracle urls).1
      = urls.filterMap (fun u => match oracle u with
          | Except.ok f => some f
          | Except.error _ => none)
    ∧ (fetch_feeds oracle urls).2
      = urls.filterMap (fun u => match oracle u with
          | Except.ok _ => none
          | Except.error e => some (u, e)) := by
  induction urls with
  | nil => exact ⟨rfl, rfl⟩
  | cons u rest ih =>
    cases ho : oracle u <;>
      simp [fetch_feeds, ho, ih.1, ih.2]

/-- C8 at the failing input: searching for the tags `a` and `b`, where
`b` exists on no article (it is not even in the `tags` table), returns
the article that carries only `a` — the searched-for tag missing from
the `tags` table is silently dropped from the ALL-tags requirement,
contradicting the claim (and the function's own docstring) that only
articles carrying all given tags are returned. -/
theorem search_articles_missing_tag_bug :
    search_articles st8 ["a", "b"] = [artX]
    ∧ (∀ t ∈ st8.tags, t.tag ≠ "b") := by
  decide

/-- C1 at the failing input: one candidate article, its group's file
write fails (`writeOk` always false); after the run no file was
written, the failure was logged for the group, and the row was deleted
anyway — the claim that a write failure leaves the group's rows live is
false of the code. -/
theorem archive_write_failure_still_deletes :
    (archive_old_articles (fun _ => some 0) (fun _ => some (2020, 1))
        (fun _ => false) st1s 100).store.articles = []
    ∧ (archive_old_articles (fun _ => some 0) (fun _ => some (2020, 1))
        (fun _ => false) st1s 100).written = []
    ∧ (archive_old_articles (fun _ => some 0) (fun _ => some (2020, 1))
        (fun _ => false) st1s 100).failed = [(2020, 1)] := by
  decide

/-- Articles placed by `addToGroups` come from the accumulator or are the
article just added. -/
theorem mem_addToGroups (key : Nat × Nat) (b x : Article) :
    ∀ (gs : List ((Nat × Nat) × List Article)) (g : (Nat × Nat) × List Article),
      g ∈ addToGroups gs key b → x ∈ g.2 →
      (∃ g2 ∈ gs, x ∈ g2.2) ∨ x = b := by
  intro gs
  induction gs with
  | nil =>
    intro g hg hx
    simp only [addToGroups, List.mem_singleton] at hg
    subst hg
    simp only [List.mem_singleton] at hx
    exact Or.inr hx
  | cons p rest ih =>
    intro g hg hx
    obtain ⟨k, l⟩ := p
    simp only [addToGroups] at hg
    by_cases hk : k = key
    · rw [if_pos hk] at hg
      rcases List.mem_cons.mp hg with rfl | hgr
      · rcases List.mem_append.mp hx with hxl | hxb
        · exact Or.inl ⟨(k, l), List.mem_cons_self _ _, hxl⟩
        · exact Or.inr (List.mem_singleton.mp hxb)
      · exact Or.inl ⟨g, List.mem_cons_of_mem _ hgr, hx⟩
    · rw [if_neg hk] at hg
      rcases List.mem_cons.mp hg with rfl | hgr
      · exact Or.inl ⟨(k, l), List.mem_cons_self _ _, hx⟩
      · rcases ih g hgr hx with ⟨g2, hg2, hxg2⟩ | hxb
        · exact Or.inl ⟨g2, List.mem_cons_of_mem _ hg2, hxg2⟩
        · exact Or.inr hxb

/-- Generalized over the accumulator: members of any group of the
grouping fold come from the accumulator or from the folded list. -/
theorem mem_buildGroups_aux (parseGroup : String → Option (Nat × Nat)) (x : Article) :
    ∀ (l : List Article) (gs : List ((Nat × Nat) × List Article))
      (g : (Nat × Nat) × List Article),
      g ∈ l.foldl (fun gs a =>
        match parseGroup a.published with
        | some ym => addToGroups gs ym a
        | none => gs) gs →
      x ∈ g.2 → (∃ g2 ∈ gs, x ∈ g2.2) ∨ x ∈ l := by
  intro l
  induction l with
  | nil =>
    intro gs g hg hx
    exact Or.inl ⟨g, by simpa using hg, hx⟩
  | cons a rest ih =>
    intro gs g hg hx
    rw [List.foldl_cons] at hg
    rcases ih _ g hg hx with hacc | hrest
    · cases hpa : parseGroup a.published with
      | some ym =>
        simp only [hpa] at hacc
        rcases hacc with ⟨g2, hg2, hxg2⟩
        rcases mem_addToGroups ym a x gs g2 hg2 hxg2 with ⟨g3, hg3, hxg3⟩ | hxa
        · exact Or.inl ⟨g3, hg3, hxg3⟩
        · exact Or.inr (by simp [hxa])
      | none =>
        simp only [hpa] at hacc
        rcases hacc with ⟨g2, hg2, hxg2⟩
        exact Or.inl ⟨g2, hg2, hxg2⟩
    · exact Or.inr (List.mem_cons_of_mem _ hrest)

/-- Every article appearing in a group of `buildGroups` comes from the
grouped candidate list. -/
theorem mem_buildGroups (parseGroup : String → Option (Nat × Nat))
    (l : List Article) (g : (Nat × Nat) × List Article) (x : Article)
    (hg : g ∈ buildGroups parseGroup l) (hx : x ∈ g.2) : x ∈ l := by
  unfold buildGroups at hg
  rcases mem_buildGroups_aux parseGroup x l [] g hg hx with ⟨g2, hg2, _⟩ | h
  · simp at hg2
  · exact h

/-- C4: an article whose `published` string neither SQLite's `datetime`
nor `dateutil` can parse is never a candidate of the archival SELECT, is
still in the live store after the run, and appears in no successfully
written archive file — for every store with distinct primary keys, every
threshold/current time and every write outcome. -/
theorem unparseable_published_never_archived
    (parseSql : String → Option Int) (parseGroup : String → Option (Nat × Nat))
    (writeOk : Nat × Nat → Bool) (st : Store) (cutoff : Int) (a : Article)
    (hnodup : (st.articles.map Article.id).Nodup)
    (ha : a ∈ st.articles)
    (h1 : parseSql a.published = none) (h2 : parseGroup a.published = none) :
    is_candidate parseSql cutoff a = false
    ∧ a ∈ (archive_old_articles parseSql parseGroup writeOk st cutoff).store.articles
    ∧ ∀ g ∈ (archive_old_articles parseSql parseGroup writeOk st cutoff).written,
        a ∉ g.2 := by
  have hcand : is_candidate parseSql cutoff a = false := by
    simp [is_candidate, h1]
  have hnotold : a ∉ archive_candidates parseSql cutoff st := by
    intro hmem
    have hpt := (List.mem_filter.mp hmem).2
    rw [hcand] at hpt
    exact Bool.false_ne_true hpt
  refine ⟨hcand, ?_, ?_⟩
  · unfold archive_old_articles
    split
    · exact ha
    · simp only
      apply List.mem_filter.mpr
      refine ⟨ha, ?_⟩
      have hid : a.id ∉ (archive_candidates parseSql cutoff st).map Article.id := by
        intro hidmem
        rcases List.mem_map.mp hidmem with ⟨b, hb, hba⟩
        have hbst : b ∈ st.articles := (List.mem_filter.mp hb).1
        have hbeq : b = a := List.inj_on_of_nodup_map hnodup hbst ha hba
        subst hbeq
        exact hnotold hb
      simp [hid]
  · intro g hgw hxg
    unfold archive_old_articles at hgw
    split at hgw
    · simp at hgw
    · simp only at hgw
      have hgb : g ∈ buildGroups parseGroup (archive_candidates parseSql cutoff st) :=
        (List.mem_filter.mp hgw).1
      exact hnotold (mem_buildGroups parseGroup _ g a hgb hxg)

/-- Witness for C4: the `not-a-date` article survives an archival run. -/
theorem unparseable_published_never_archived_witness :
    aND ∈ (archive_old_articles (fun _ => none) (fun _ => none)
      (fun _ => true) stw4 0).store.articles :=
  (unparseable_published_never_archived (fun _ => none) (fun _ => none)
    (fun _ => true) stw4 0 aND (by decide) (by decide) rfl rfl).2.1

/-- C10: when the candidate SELECT comes back empty, the run returns at
once: the store (every table) is untouched and no group file write —
hence no directory or file creation — is even attempted. -/
theorem archive_no_candidates_noop (parseSql : String → Option Int)
    (parseGroup : String → Option (Nat × Nat)) (writeOk : Nat × Nat → Bool)
    (st : Store) (cutoff : Int)
    (h : archive_candidates parseSql cutoff st = []) :
    archive_old_articles parseSql parseGroup writeOk st cutoff
      = { store := st, written := [], failed := [] } := by
  unfold archive_old_articles
  rw [h]
  rfl

/-- Witness for C10 on a store whose only article is unparseable. -/
theorem archive_no_candidates_noop_witness :
    archive_old_articles (fun _ => none) (fun _ => none) (fun _ => true) stw10 0
      = { store := stw10, written := [], failed := [] } :=
  archive_no_candidates_noop (fun _ => none) (fun _ => none) (fun _ => true)
    stw10 0 (by decide)

/-- C9: the invariant holds of a freshly initialized database and is
preserved by `save_source`, by `save_article` (both insert and update
paths, for either flag — every path that writes `content` also stamps
`scraped_at`), and by an archival run (which only deletes rows). -/
theorem nonempty_content_has_scraped_at (st : Store) (h : ArticleInv st)
    (name url title link published content : String) (sid : Nat)
    (scraped_now : Bool) (now : Int)
    (parseSql : String → Option Int) (parseGroup : String → Option (Nat × Nat))
    (writeOk : Nat × Nat → Bool) (cutoff : Int) :
    ArticleInv initialize_db
    ∧ ArticleInv (save_source st name url).1
    ∧ ArticleInv (save_article st title link published content sid scraped_now now).store
    ∧ ArticleInv (archive_old_articles parseSql parseGroup writeOk st cutoff).store := by
  refine ⟨?_, ?_, ?_, ?_⟩
  · intro a ha
    simp [initialize_db] at ha
  · intro a ha
    have harts : (save_source st name url).1.articles = st.articles := by
      unfold save_source
      split
      · split <;> rfl
      · rfl
    rw [harts] at ha
    exact h a ha
  · intro a ha hc
    simp only [save_article] at ha
    split at ha
    · split at ha
      · simp only at ha
        rcases List.mem_map.mp ha with ⟨b, hb, hba⟩
        by_cases hbl : (b.link == link) = true
        · rw [if_pos hbl] at hba
          subst hba
          simp
        · rw [if_neg hbl] at hba
          subst hba
          exact h b hb hc
      · exact h a ha hc
    · simp only at ha
      rcases List.mem_append.mp ha with hold | hnew
      · exact h a hold hc
      · simp only [List.mem_singleton] at hnew
        subst hnew
        simp
  · intro a ha hc
    unfold archive_old_articles at ha
    split at ha
    · exact h a ha hc
    · simp only at ha
      exact h a (List.mem_filter.mp ha).1 hc

/-- Witness for C9 after a scraped upsert on a concrete store. -/
theorem nonempty_content_has_scraped_at_witness :
    ArticleInv (save_article stw9 "t" "LZ" "p" "c2" 1 true 9).store :=
  (nonempty_content_has_scraped_at stw9 (by unfold ArticleInv; decide) "n" "u" "t" "LZ" "p" "c2" 1
    true 9 (fun _ => none) (fun _ => none) (fun _ => true) 0).2.2.1
